import Mathlib

/-!
Shallow embedding of the course-enrollment service's caching core:
the JSON serialization codec (encoding/json over models.CourseResponse),
the Redis-backed cache client (internal/service RedisService), and the
course catalog service (internal/service courseService), together with
theorems settling the specification claims about them.

Modelling conventions:
* UUIDs are modelled by their canonical string form (uuid.UUID marshals
  to and from that string); the zero UUID is the all-zero string.
* time.Time values are modelled by their RFC3339 string rendering.
* Cache entries are modelled at the JSON-value level (a Json AST) rather
  than at the byte level: encoding/json's byte rendering of a JSON value
  is injective and its escaping is not load-bearing for any claim.
* The Redis backend is a key/value store with per-key absolute expiry
  plus a `failing` flag: when set, every backend call returns an error,
  modelling a timeout/connection failure on every call.
* The relational repository is an oracle record of functions: the claims
  compare service results and cache effects, not database state.
-/

/-- JSON values: the wire format of cache entries (encoding/json). -/
inductive Json where
  | null : Json
  | str : String → Json
  | arr : List Json → Json
  | obj : List (String × Json) → Json

/-- models.CourseResponse: the response payload cached for course reads.
ID is a uuid.UUID (modelled by its canonical string), ImageURL is a
nullable pointer field with the json tag image_url,omitempty, and
CreatedAt is a time.Time (modelled by its RFC3339 string). -/
structure CourseResponse where
  id : String
  title : String
  description : String
  difficulty : String
  imageURL : Option String
  createdAt : String
deriving DecidableEq, Repr

/-- models.Course: the persisted entity (relationship field omitted; it
never reaches the cache or the response). -/
structure Course where
  id : String
  title : String
  description : String
  difficulty : String
  imageURL : Option String
  createdAt : String
  updatedAt : String
deriving DecidableEq, Repr

/-- models.CourseRequest: the create/update payload. -/
structure CourseRequest where
  title : String
  description : String
  difficulty : String
  imageURL : Option String
deriving DecidableEq, Repr

/-- The canonical string of the zero uuid.UUID. -/
def zeroUUIDString : String := "00000000-0000-0000-0000-000000000000"

/-- The RFC3339 rendering of the zero time.Time. -/
def zeroTimeString : String := "0001-01-01T00:00:00Z"

/-- models.Course.ToResponse: projects the entity onto the response shape. -/
def Course.ToResponse (c : Course) : CourseResponse :=
  { id := c.id
    title := c.title
    description := c.description
    difficulty := c.difficulty
    imageURL := c.imageURL
    createdAt := c.createdAt }

/-- constants.CacheTTL = 15 * time.Minute, in seconds. -/
def CacheTTL : Nat := 15 * 60

/-- json.Marshal of a CourseResponse: emits the tagged fields in struct
order; image_url carries omitempty, so a nil pointer omits the field. -/
def encodeCourse (c : CourseResponse) : Json :=
  Json.obj
    (("id", Json.str c.id)
      :: ("title", Json.str c.title)
      :: ("description", Json.str c.description)
      :: ("difficulty", Json.str c.difficulty)
      :: (match c.imageURL with
          | some u => [("image_url", Json.str u), ("created_at", Json.str c.createdAt)]
          | none => [("created_at", Json.str c.createdAt)]))

/-- json.Marshal of a course list: a JSON array of the encoded elements. -/
def encodeCourses (cs : List CourseResponse) : Json :=
  Json.arr (cs.map encodeCourse)

/-- First binding of a key in a JSON object's field list. -/
def lookupField : List (String × Json) → String → Option Json
  | [], _ => none
  | (k, v) :: rest, key => if k = key then some v else lookupField rest key

/-- json.Unmarshal of one string-backed field: a missing field or a JSON
null leaves the zero value z, a JSON string sets the field, and any
other JSON type is an unmarshal type error. -/
def decodeStrField (fields : List (String × Json)) (key : String) (z : String) :
    Option String :=
  match lookupField fields key with
  | none => some z
  | some Json.null => some z
  | some (Json.str s) => some s
  | some _ => none

/-- json.Unmarshal of the nullable image_url field (*string): missing or
null gives a nil pointer, a string gives a pointer to it, any other
JSON type is an unmarshal type error. -/
def decodeOptStrField (fields : List (String × Json)) (key : String) :
    Option (Option String) :=
  match lookupField fields key with
  | none => some none
  | some Json.null => some none
  | some (Json.str s) => some (some s)
  | some _ => none

/-- json.Unmarshal into a CourseResponse: a JSON object decodes field by
field (missing fields keep zero values, unknown fields are ignored);
JSON null is a no-op on the zero value; everything else is an error. -/
def decodeCourse : Json → Option CourseResponse
  | Json.null =>
    some { id := zeroUUIDString, title := "", description := "", difficulty := ""
           imageURL := none, createdAt := zeroTimeString }
  | Json.obj fields =>
    match decodeStrField fields "id" zeroUUIDString,
        decodeStrField fields "title" "",
        decodeStrField fields "description" "",
        decodeStrField fields "difficulty" "",
        decodeOptStrField fields "image_url",
        decodeStrField fields "created_at" zeroTimeString with
    | some i, some t, some de, some di, some im, some cr =>
      some { id := i, title := t, description := de, difficulty := di
             imageURL := im, createdAt := cr }
    | _, _, _, _, _, _ => none
  | _ => none

/-- Element-wise decoding of a JSON array of courses. -/
def decodeCourseList : List Json → Option (List CourseResponse)
  | [] => some []
  | j :: rest =>
    match decodeCourse j, decodeCourseList rest with
    | some c, some cs => some (c :: cs)
    | _, _ => none

/-- json.Unmarshal into a course list: only a JSON array decodes (the
JSON-null-to-nil-slice case is handled at the GetCourses call site). -/
def decodeCourses : Json → Option (List CourseResponse)
  | Json.arr xs => decodeCourseList xs
  | _ => none

theorem decodeCourse_encodeCourse (c : CourseResponse) :
    decodeCourse (encodeCourse c) = some c := by
  obtain ⟨i, t, de, di, im, cr⟩ := c
  cases im <;> rfl

theorem decodeCourses_encodeCourses (cs : List CourseResponse) :
    decodeCourses (encodeCourses cs) = some cs := by
  induction cs with
  | nil => rfl
  | cons c rest ih =>
    simp only [encodeCourses, List.map, decodeCourses, decodeCourseList,
      decodeCourse_encodeCourse]
    simp only [encodeCourses, decodeCourses] at ih
    simp [ih]

/-- Lookup in the backend key/value store (value and absolute expiry). -/
def storeGet : List (String × Json × Nat) → String → Option (Json × Nat)
  | [], _ => none
  | (k, v) :: rest, key => if k = key then some v else storeGet rest key

/-- Overwrite a key in the backend store. -/
def storeSet (s : List (String × Json × Nat)) (key : String) (v : Json × Nat) :
    List (String × Json × Nat) :=
  (key, v) :: s.filter (fun e => e.1 != key)

/-- Remove a key from the backend store (removing an absent key is a no-op,
matching Redis DEL, which simply reports zero keys removed). -/
def storeDel (s : List (String × Json × Nat)) (key : String) :
    List (String × Json × Nat) :=
  s.filter (fun e => e.1 != key)

/-- The Redis backend as seen through one client: the current time, a flag
forcing every call to error (modelling timeouts/connection failures), and
the keyed store with per-key absolute expiry. -/
structure CacheState where
  now : Nat
  failing : Bool
  store : List (String × Json × Nat)

/-- Backend GET: errors when the backend is failing; otherwise an absent or
expired key is a miss (redis.Nil) and a live key returns its value. -/
def redisGet (st : CacheState) (key : String) : Except Unit (Option Json) :=
  if st.failing then Except.error ()
  else
    match storeGet st.store key with
    | none => Except.ok none
    | some (v, exp) => if st.now < exp then Except.ok (some v) else Except.ok none

/-- Backend SET with TTL: errors when the backend is failing; otherwise
stores the value with expiry now + ttl. -/
def redisSet (st : CacheState) (key : String) (v : Json) (ttl : Nat) :
    Except Unit CacheState :=
  if st.failing then Except.error ()
  else Except.ok { st with store := storeSet st.store key (v, st.now + ttl) }

/-- Backend DEL: errors when the backend is failing; otherwise removes the
key (absent keys included, without error). -/
def redisDel (st : CacheState) (key : String) : Except Unit CacheState :=
  if st.failing then Except.error ()
  else Except.ok { st with store := storeDel st.store key }

namespace RedisService

/-- The entity cache key: fmt.Sprintf("course:%s", courseID). -/
def courseKey (courseID : String) : String := "course:" ++ courseID

/-- The list-snapshot cache key used by SetCourses/GetCourses. -/
def coursesAllKey : String := "courses:all"

/-- RedisService.SetCourse: marshals the course and SETs it under
course:<id> with constants.CacheTTL. -/
def SetCourse (st : CacheState) (course : CourseResponse) : Except Unit CacheState :=
  redisSet st (courseKey course.id) (encodeCourse course) CacheTTL

/-- RedisService.GetCourse: GETs course:<id>; redis.Nil is a miss (nil, nil),
any other backend error is returned, and an unmarshal failure is returned
as an error as well. -/
def GetCourse (st : CacheState) (courseID : String) :
    Except Unit (Option CourseResponse) :=
  match redisGet st (courseKey courseID) with
  | Except.error e => Except.error e
  | Except.ok none => Except.ok none
  | Except.ok (some data) =>
    match decodeCourse data with
    | none => Except.error ()
    | some course => Except.ok (some course)

/-- RedisService.DeleteCourse: DELs course:<id>. -/
def DeleteCourse (st : CacheState) (courseID : String) : Except Unit CacheState :=
  redisDel st (courseKey courseID)

/-- RedisService.SetCourses: marshals the list and SETs it under
courses:all with constants.CacheTTL. -/
def SetCourses (st : CacheState) (courses : List CourseResponse) :
    Except Unit CacheState :=
  redisSet st coursesAllKey (encodeCourses courses) CacheTTL

/-- RedisService.GetCourses: GETs courses:all; redis.Nil is a miss. A stored
JSON null unmarshals to a nil slice without error, which the caller cannot
distinguish from a miss, so it is returned as a miss here; an unmarshal
failure is returned as an error. -/
def GetCourses (st : CacheState) :
    Except Unit (Option (List CourseResponse)) :=
  match redisGet st coursesAllKey with
  | Except.error e => Except.error e
  | Except.ok none => Except.ok none
  | Except.ok (some Json.null) => Except.ok none
  | Except.ok (some data) =>
    match decodeCourses data with
    | none => Except.error ()
    | some courses => Except.ok (some courses)

/-- RedisService.InvalidateCoursesCache: DELs courses:all. -/
def InvalidateCoursesCache (st : CacheState) : Except Unit CacheState :=
  redisDel st coursesAllKey

end RedisService

/-- Repository errors: gorm.ErrRecordNotFound versus any other error. -/
inductive RepoError where
  | recordNotFound : RepoError
  | other : String → RepoError
deriving DecidableEq, Repr

/-- Errors returned by the course service: the literal error
"course not found" minted for gorm.ErrRecordNotFound, or a repository
error passed through unchanged. -/
inductive SvcError where
  | courseNotFound : SvcError
  | repo : RepoError → SvcError
deriving DecidableEq, Repr

/-- repository.CourseRepository as an oracle of outcomes. Create mutates
its argument in Go (the database fills ID and timestamps); here it
returns the persisted course. -/
structure CourseRepository where
  create : Course → Except RepoError Course
  getAll : Except RepoError (List Course)
  getByID : String → Except RepoError Course
  update : Course → Except RepoError Unit
  delete : String → Except RepoError Unit

/-- The Course literal built by CreateCourse from the request (ID and
timestamps zero until the repository fills them). -/
def courseFromRequest (req : CourseRequest) : Course :=
  { id := zeroUUIDString
    title := req.title
    description := req.description
    difficulty := req.difficulty
    imageURL := req.imageURL
    createdAt := zeroTimeString
    updatedAt := zeroTimeString }

/-- A best-effort cache call: the service discards the returned error, so
a failed call leaves the cache state unchanged. -/
def bestEffort (r : Except Unit CacheState) (st : CacheState) : CacheState :=
  match r with
  | Except.ok st2 => st2
  | Except.error _ => st

namespace courseService

/-- courseService.CreateCourse: persists the course, then (when the Redis
handle is non-nil) invalidates the courses:all snapshot, ignoring any
cache error. -/
def CreateCourse (repo : CourseRepository) (cache : Option CacheState)
    (req : CourseRequest) : Except SvcError CourseResponse × Option CacheState :=
  match repo.create (courseFromRequest req) with
  | Except.error e => (Except.error (SvcError.repo e), cache)
  | Except.ok course =>
    match cache with
    | none => (Except.ok course.ToResponse, none)
    | some st =>
      (Except.ok course.ToResponse,
        some (bestEffort (RedisService.InvalidateCoursesCache st) st))

/-- courseService.GetAllCourses: serves from cache when the Redis handle is
non-nil, GetCourses returned no error and a non-nil list; otherwise reads
the repository and best-effort populates the snapshot. -/
def GetAllCourses (repo : CourseRepository) (cache : Option CacheState) :
    Except SvcError (List CourseResponse) × Option CacheState :=
  let hit : Option (List CourseResponse) :=
    match cache with
    | none => none
    | some st =>
      match RedisService.GetCourses st with
      | Except.ok (some cachedCourses) => some cachedCourses
      | _ => none
  match hit with
  | some cachedCourses => (Except.ok cachedCourses, cache)
  | none =>
    match repo.getAll with
    | Except.error e => (Except.error (SvcError.repo e), cache)
    | Except.ok courses =>
      let responses := courses.map Course.ToResponse
      match cache with
      | none => (Except.ok responses, none)
      | some st =>
        (Except.ok responses, some (bestEffort (RedisService.SetCourses st responses) st))

/-- courseService.GetCourseByID: serves from cache on a hit; on a miss or
any cache error it reads the repository (mapping record-not-found to
"course not found") and best-effort populates course:<id>. -/
def GetCourseByID (repo : CourseRepository) (cache : Option CacheState)
    (id : String) : Except SvcError CourseResponse × Option CacheState :=
  let hit : Option CourseResponse :=
    match cache with
    | none => none
    | some st =>
      match RedisService.GetCourse st id with
      | Except.ok (some cachedCourse) => some cachedCourse
      | _ => none
  match hit with
  | some cachedCourse => (Except.ok cachedCourse, cache)
  | none =>
    match repo.getByID id with
    | Except.error RepoError.recordNotFound => (Except.error SvcError.courseNotFound, cache)
    | Except.error e => (Except.error (SvcError.repo e), cache)
    | Except.ok course =>
      let response := course.ToResponse
      match cache with
      | none => (Except.ok response, none)
      | some st =>
        (Except.ok response, some (bestEffort (RedisService.SetCourse st response) st))

/-- courseService.UpdateCourse: loads the course, overwrites the request
fields, persists the update and returns the response. The source performs
no cache invalidation on this path, so the cache state passes through
unchanged. -/
def UpdateCourse (repo : CourseRepository) (cache : Option CacheState)
    (id : String) (req : CourseRequest) :
    Except SvcError CourseResponse × Option CacheState :=
  match repo.getByID id with
  | Except.error RepoError.recordNotFound => (Except.error SvcError.courseNotFound, cache)
  | Except.error e => (Except.error (SvcError.repo e), cache)
  | Except.ok course0 =>
    let course :=
      { course0 with
        title := req.title
        description := req.description
        difficulty := req.difficulty
        imageURL := req.imageURL }
    match repo.update course with
    | Except.error e => (Except.error (SvcError.repo e), cache)
    | Except.ok _ => (Except.ok course.ToResponse, cache)

/-- courseService.DeleteCourse: checks existence, then deletes from the
repository. The source performs no cache invalidation on this path, so
the cache state passes through unchanged. -/
def DeleteCourse (repo : CourseRepository) (cache : Option CacheState)
    (id : String) : Except SvcError Unit × Option CacheState :=
  match repo.getByID id with
  | Except.error RepoError.recordNotFound => (Except.error SvcError.courseNotFound, cache)
  | Except.error e => (Except.error (SvcError.repo e), cache)
  | Except.ok _ =>
    match repo.delete id with
    | Except.error e => (Except.error (SvcError.repo e), cache)
    | Except.ok _ => (Except.ok (), cache)

end courseService

/-- Modelled from the spec: a cache-free catalog service calling the
repository directly (the behavior the unit tests exercise by constructing
the service with a nil Redis handle). Create path. -/
def plainCreateCourse (repo : CourseRepository) (req : CourseRequest) :
    Except SvcError CourseResponse :=
  match repo.create (courseFromRequest req) with
  | Except.error e => Except.error (SvcError.repo e)
  | Except.ok course => Except.ok course.ToResponse

/-- Modelled from the spec: cache-free list read straight from the repository. -/
def plainGetAllCourses (repo : CourseRepository) :
    Except SvcError (List CourseResponse) :=
  match repo.getAll with
  | Except.error e => Except.error (SvcError.repo e)
  | Except.ok courses => Except.ok (courses.map Course.ToResponse)

/-- Modelled from the spec: cache-free single read straight from the repository. -/
def plainGetCourseByID (repo : CourseRepository) (id : String) :
    Except SvcError CourseResponse :=
  match repo.getByID id with
  | Except.error RepoError.recordNotFound => Except.error SvcError.courseNotFound
  | Except.error e => Except.error (SvcError.repo e)
  | Except.ok course => Except.ok course.ToResponse

/-- Modelled from the spec: cache-free update straight against the repository. -/
def plainUpdateCourse (repo : CourseRepository) (id : String)
    (req : CourseRequest) : Except SvcError CourseResponse :=
  match repo.getByID id with
  | Except.error RepoError.recordNotFound => Except.error SvcError.courseNotFound
  | Except.error e => Except.error (SvcError.repo e)
  | Except.ok course0 =>
    let course :=
      { course0 with
        title := req.title
        description := req.description
        difficulty := req.difficulty
        imageURL := req.imageURL }
    match repo.update course with
    | Except.error e => Except.error (SvcError.repo e)
    | Except.ok _ => Except.ok course.ToResponse

/-- Modelled from the spec: cache-free delete straight against the repository. -/
def plainDeleteCourse (repo : CourseRepository) (id : String) :
    Except SvcError Unit :=
  match repo.getByID id with
  | Except.error RepoError.recordNotFound => Except.error SvcError.courseNotFound
  | Except.error e => Except.error (SvcError.repo e)
  | Except.ok _ =>
    match repo.delete id with
    | Except.error e => Except.error (SvcError.repo e)
    | Except.ok _ => Except.ok ()

/-! Helper lemmas about the store and the failing backend. -/

theorem storeGet_storeSet_self (s : List (String × Json × Nat)) (key : String)
    (v : Json × Nat) : storeGet (storeSet s key v) key = some v := by
  simp [storeSet, storeGet]

theorem storeGet_storeDel_self (s : List (String × Json × Nat)) (key : String) :
    storeGet (storeDel s key) key = none := by
  induction s with
  | nil => rfl
  | cons e rest ih =>
    obtain ⟨k, v⟩ := e
    by_cases h : k = key
    · simpa [storeDel, List.filter_cons, h] using ih
    · simpa [storeDel, List.filter_cons, h, storeGet] using ih

theorem getCourse_failing (st : CacheState) (id : String) (hf : st.failing = true) :
    RedisService.GetCourse st id = Except.error () := by
  simp [RedisService.GetCourse, redisGet, hf]

theorem getCourses_failing (st : CacheState) (hf : st.failing = true) :
    RedisService.GetCourses st = Except.error () := by
  simp [RedisService.GetCourses, redisGet, hf]

theorem setCourse_failing (st : CacheState) (c : CourseResponse)
    (hf : st.failing = true) :
    RedisService.SetCourse st c = Except.error () := by
  simp [RedisService.SetCourse, redisSet, hf]

theorem setCourses_failing (st : CacheState) (cs : List CourseResponse)
    (hf : st.failing = true) :
    RedisService.SetCourses st cs = Except.error () := by
  simp [RedisService.SetCourses, redisSet, hf]

theorem invalidateCoursesCache_failing (st : CacheState) (hf : st.failing = true) :
    RedisService.InvalidateCoursesCache st = Except.error () := by
  simp [RedisService.InvalidateCoursesCache, redisDel, hf]

/-! Concrete fixtures used by witnesses and counterexamples. -/

/-- A persisted sample course. -/
def sampleCourse : Course :=
  { id := "11111111-1111-1111-1111-111111111111"
    title := "Go"
    description := "Learn Go"
    difficulty := "Beginner"
    imageURL := none
    createdAt := "2023-01-01T00:00:00Z"
    updatedAt := "2023-01-01T00:00:00Z" }

/-- The cached response shape of the sample course. -/
def sampleResponse : CourseResponse := sampleCourse.ToResponse

/-- An update request changing the sample course's title. -/
def updateReq : CourseRequest :=
  { title := "New Title"
    description := "Learn Go"
    difficulty := "Beginner"
    imageURL := none }

/-- The sample course after applying updateReq. -/
def updatedSample : Course :=
  { sampleCourse with
    title := updateReq.title
    description := updateReq.description
    difficulty := updateReq.difficulty
    imageURL := updateReq.imageURL }

/-- A healthy, empty cache backend. -/
def emptyCache : CacheState := { now := 0, failing := false, store := [] }

/-- A backend erroring on every call. -/
def failingCache : CacheState := { now := 0, failing := true, store := [] }

/-- A healthy backend holding the sample course under its entity key. -/
def cacheWithSample : CacheState :=
  { now := 0, failing := false
    store := [(RedisService.courseKey sampleCourse.id, encodeCourse sampleResponse, CacheTTL)] }

/-- A healthy backend holding the one-element list snapshot under courses:all. -/
def cacheWithList : CacheState :=
  { now := 0, failing := false
    store := [(RedisService.coursesAllKey, encodeCourses [sampleResponse], CacheTTL)] }

/-- The backend state after SetCourse of the sample course on an empty cache. -/
def afterPutEntity : CacheState :=
  { now := 0, failing := false
    store := [(RedisService.courseKey sampleResponse.id, encodeCourse sampleResponse, CacheTTL)] }

/-- The backend state after SetCourses of the one-element list on an empty cache. -/
def afterPutList : CacheState :=
  { now := 0, failing := false
    store := [(RedisService.coursesAllKey, encodeCourses [sampleResponse], CacheTTL)] }

/-- A repository oracle that knows exactly the sample course and accepts
every mutation. -/
def sampleRepo : CourseRepository :=
  { create := fun c => Except.ok c
    getAll := Except.ok [sampleCourse]
    getByID := fun i =>
      if i = sampleCourse.id then Except.ok sampleCourse
      else Except.error RepoError.recordNotFound
    update := fun _ => Except.ok ()
    delete := fun _ => Except.ok () }

/-! Claim theorems. -/

/-- C5: for every valid value of each cached shape — a single CourseResponse,
including a nil/absent optional ImageURL field, and a list of
CourseResponse — the serialization codec satisfies decode(encode(v)) = v. -/
theorem c5_codec_round_trip (c : CourseResponse) (cs : List CourseResponse) :
    decodeCourse (encodeCourse c) = some c ∧
    decodeCourses (encodeCourses cs) = some cs :=
  ⟨decodeCourse_encodeCourse c, decodeCourses_encodeCourses cs⟩

/-- C6: if putEntity (SetCourse) succeeds for value c, then a following
getEntity (GetCourse) for c's id — with no intervening invalidation and at
any time within the TTL window — returns c as a hit, not a miss. -/
theorem c6_put_then_get_within_ttl (st : CacheState) (c : CourseResponse)
    (st2 : CacheState) (t : Nat)
    (hput : RedisService.SetCourse st c = Except.ok st2)
    (hlo : st.now ≤ t) (hhi : t < st.now + CacheTTL) :
    RedisService.GetCourse { st2 with now := t } c.id = Except.ok (some c) := by
  unfold RedisService.SetCourse redisSet at hput
  by_cases hf : st.failing
  · simp [hf] at hput
  · simp [hf] at hput
    subst hput
    simp [RedisService.GetCourse, redisGet, hf, storeGet_storeSet_self, hhi,
      decodeCourse_encodeCourse]

/-- C6 witness: putting the sample course into an empty cache and reading
it back immediately returns the same value as a hit. -/
theorem c6_put_then_get_within_ttl_witness :
    RedisService.GetCourse { afterPutEntity with now := 0 } sampleResponse.id =
      Except.ok (some sampleResponse) :=
  c6_put_then_get_within_ttl emptyCache sampleResponse afterPutEntity 0 rfl
    (by decide) (by decide)

/-- C7: after invalidateEntity (DeleteCourse on the cache) returns
successfully — which it does for every non-failing backend, present key or
not — a following getEntity (GetCourse) for that id returns Miss. -/
theorem c7_invalidate_then_get_misses (st : CacheState) (id : String)
    (hf : st.failing = false) :
    RedisService.DeleteCourse st id =
      Except.ok { st with store := storeDel st.store (RedisService.courseKey id) } ∧
    RedisService.GetCourse
      { st with store := storeDel st.store (RedisService.courseKey id) } id =
      Except.ok none := by
  constructor
  · simp [RedisService.DeleteCourse, redisDel, hf]
  · simp [RedisService.GetCourse, redisGet, hf, storeGet_storeDel_self]

/-- C7 witness: deleting the sample course's key from a cache that holds it
succeeds and the immediate re-read is a miss. -/
theorem c7_invalidate_then_get_misses_witness :
    RedisService.DeleteCourse cacheWithSample sampleCourse.id =
      Except.ok { cacheWithSample with
        store := storeDel cacheWithSample.store (RedisService.courseKey sampleCourse.id) } ∧
    RedisService.GetCourse
      { cacheWithSample with
        store := storeDel cacheWithSample.store (RedisService.courseKey sampleCourse.id) }
      sampleCourse.id = Except.ok none :=
  c7_invalidate_then_get_misses cacheWithSample sampleCourse.id rfl

/-- C8: the TTL constant is the fixed 15-minute (900-second) duration, it
is finite and positive, and every entity or list entry written through
SetCourse/SetCourses is stored with expiry now + CacheTTL — never with
infinite lifetime. -/
theorem c8_writes_carry_fixed_positive_ttl :
    CacheTTL = 900 ∧ 0 < CacheTTL ∧
    (∀ st c st2, RedisService.SetCourse st c = Except.ok st2 →
      storeGet st2.store (RedisService.courseKey c.id) =
        some (encodeCourse c, st.now + CacheTTL)) ∧
    (∀ st cs st2, RedisService.SetCourses st cs = Except.ok st2 →
      storeGet st2.store RedisService.coursesAllKey =
        some (encodeCourses cs, st.now + CacheTTL)) := by
  refine ⟨rfl, by decide, ?_, ?_⟩
  · intro st c st2 hput
    unfold RedisService.SetCourse redisSet at hput
    by_cases hf : st.failing
    · simp [hf] at hput
    · simp [hf] at hput
      subst hput
      simp [storeGet_storeSet_self]
  · intro st cs st2 hput
    unfold RedisService.SetCourses redisSet at hput
    by_cases hf : st.failing
    · simp [hf] at hput
    · simp [hf] at hput
      subst hput
      simp [storeGet_storeSet_self]

/-- C8 witness: concrete SetCourse and SetCourses calls on the empty cache
store their entries with expiry 0 + CacheTTL. -/
theorem c8_writes_carry_fixed_positive_ttl_witness :
    storeGet afterPutEntity.store (RedisService.courseKey sampleResponse.id) =
      some (encodeCourse sampleResponse, emptyCache.now + CacheTTL) ∧
    storeGet afterPutList.store RedisService.coursesAllKey =
      some (encodeCourses [sampleResponse], emptyCache.now + CacheTTL) :=
  ⟨c8_writes_carry_fixed_positive_ttl.2.2.1 emptyCache sampleResponse afterPutEntity rfl,
    c8_writes_carry_fixed_positive_ttl.2.2.2 emptyCache [sampleResponse] afterPutList rfl⟩

/-- C9 counterexample: passing the empty identifier to GetCourse on a
healthy, empty backend returns an ordinary Miss (ok none) — no
precondition error surfaces, contradicting the claim that an empty
identifier fails loudly. -/
theorem c9_empty_id_no_error_counterexample :
    RedisService.GetCourse emptyCache "" = Except.ok none := rfl

/-- C9 as amended: GetCourse performs no empty-identifier precondition
check; the empty id builds the key "course:" and is handled exactly like
any other identifier — an ordinary miss when the key is absent, an
ordinary hit when a live decodable entry is present, never a surfaced
programmer error. -/
theorem c9_empty_id_is_ordinary_lookup (st : CacheState)
    (hf : st.failing = false) :
    (storeGet st.store (RedisService.courseKey "") = none →
      RedisService.GetCourse st "" = Except.ok none) ∧
    (∀ v e c, storeGet st.store (RedisService.courseKey "") = some (v, e) →
      st.now < e → decodeCourse v = some c →
      RedisService.GetCourse st "" = Except.ok (some c)) := by
  constructor
  · intro habs
    simp [RedisService.GetCourse, redisGet, hf, habs]
  · intro v e c hv hlive hdec
    simp [RedisService.GetCourse, redisGet, hf, hv, hlive, hdec]

/-- C9 witness: on a healthy backend holding an unrelated entity key, the
empty identifier is an ordinary miss. -/
theorem c9_empty_id_is_ordinary_lookup_witness :
    RedisService.GetCourse cacheWithSample "" = Except.ok none :=
  (c9_empty_id_is_ordinary_lookup cacheWithSample rfl).1 rfl

/-- C3 counterexample: with the backend erroring (timeout/connection
failure), GetCourse and GetCourses return an error to the caller — not
Miss — contradicting the claim that the layer never propagates backend
errors. -/
theorem c3_backend_error_propagates_counterexample :
    RedisService.GetCourse failingCache "abc" = Except.error () ∧
    RedisService.GetCourses failingCache = Except.error () :=
  ⟨getCourse_failing failingCache "abc" rfl, getCourses_failing failingCache rfl⟩

/-- C3 as amended: GetCourse/GetCourses return Miss only for true key
absence or expiry; a backend error makes both return the error to the
caller, and a decode failure of a live cached entry makes GetCourse
return an error as well — the uniform miss-on-error treatment lives in
the calling service's err checks, not in this layer. -/
theorem c3_cache_layer_returns_errors :
    (∀ st id, st.failing = true →
      RedisService.GetCourse st id = Except.error () ∧
      RedisService.GetCourses st = Except.error ()) ∧
    (∀ st id v e, st.failing = false →
      storeGet st.store (RedisService.courseKey id) = some (v, e) →
      st.now < e → decodeCourse v = none →
      RedisService.GetCourse st id = Except.error ()) := by
  constructor
  · intro st id hf
    exact ⟨getCourse_failing st id hf, getCourses_failing st hf⟩
  · intro st id v e hf hv hlive hdec
    simp [RedisService.GetCourse, redisGet, hf, hv, hlive, hdec]

/-- C3 witness: the failing backend makes both getters error, and a cached
entry whose bytes do not decode as a course (a JSON string) makes
GetCourse error. -/
theorem c3_cache_layer_returns_errors_witness :
    (RedisService.GetCourse failingCache "abc" = Except.error () ∧
      RedisService.GetCourses failingCache = Except.error ()) ∧
    RedisService.GetCourse
      { now := 0, failing := false
        store := [(RedisService.courseKey "abc", Json.str "corrupt", 900)] } "abc" =
      Except.error () :=
  ⟨c3_cache_layer_returns_errors.1 failingCache "abc" rfl,
    c3_cache_layer_returns_errors.2
      { now := 0, failing := false
        store := [(RedisService.courseKey "abc", Json.str "corrupt", 900)] }
      "abc" (Json.str "corrupt") 900 rfl rfl (by decide) rfl⟩

/-- C1: the claim fails on the code — a successful UpdateCourse and a
successful DeleteCourse leave the cache state untouched (neither path
ever invokes the cache's DeleteCourse), so the entity key course:<id>
survives and the next GetCourse still returns the stale pre-update
value as a hit instead of missing and repopulating. -/
theorem c1_update_delete_never_invalidate_entity :
    (courseService.UpdateCourse sampleRepo (some cacheWithSample)
        sampleCourse.id updateReq).1 = Except.ok updatedSample.ToResponse ∧
    (courseService.UpdateCourse sampleRepo (some cacheWithSample)
        sampleCourse.id updateReq).2 = some cacheWithSample ∧
    (courseService.DeleteCourse sampleRepo (some cacheWithSample)
        sampleCourse.id).1 = Except.ok () ∧
    (courseService.DeleteCourse sampleRepo (some cacheWithSample)
        sampleCourse.id).2 = some cacheWithSample ∧
    RedisService.GetCourse cacheWithSample sampleCourse.id =
      Except.ok (some sampleResponse) :=
  ⟨rfl, rfl, rfl, rfl, by
    simp [RedisService.GetCourse, redisGet, cacheWithSample,
      storeGet, decodeCourse_encodeCourse, CacheTTL]⟩

/-- C2: the claim fails on the code for two of the three writes — only
CreateCourse deletes the courses:all snapshot; a successful UpdateCourse
and a successful DeleteCourse leave it cached, so the next GetCourses
still returns the stale snapshot instead of missing. -/
theorem c2_only_create_invalidates_list :
    (courseService.CreateCourse sampleRepo (some cacheWithList) updateReq).2 =
      some { cacheWithList with store := [] } ∧
    (courseService.UpdateCourse sampleRepo (some cacheWithList)
        sampleCourse.id updateReq).1 = Except.ok updatedSample.ToResponse ∧
    (courseService.UpdateCourse sampleRepo (some cacheWithList)
        sampleCourse.id updateReq).2 = some cacheWithList ∧
    (courseService.DeleteCourse sampleRepo (some cacheWithList)
        sampleCourse.id).2 = some cacheWithList ∧
    RedisService.GetCourses cacheWithList =
      Except.ok (some [sampleResponse]) :=
  ⟨rfl, rfl, rfl, rfl, by
    simp [RedisService.GetCourses, redisGet, cacheWithList,
      storeGet, encodeCourses, decodeCourses, decodeCourseList,
      decodeCourse_encodeCourse, CacheTTL]⟩

/-- C4: if the cache backend errors on every call, every catalog operation
returns exactly the cache-free (repository-only) result, the cache state
is left unchanged, and no failed cache population or invalidation makes
the calling operation fail. -/
theorem c4_failing_backend_falls_through_to_store (st : CacheState)
    (repo : CourseRepository) (req : CourseRequest) (id : String)
    (hf : st.failing = true) :
    courseService.CreateCourse repo (some st) req =
      (plainCreateCourse repo req, some st) ∧
    courseService.GetAllCourses repo (some st) =
      (plainGetAllCourses repo, some st) ∧
    courseService.GetCourseByID repo (some st) id =
      (plainGetCourseByID repo id, some st) ∧
    courseService.UpdateCourse repo (some st) id req =
      (plainUpdateCourse repo id req, some st) ∧
    courseService.DeleteCourse repo (some st) id =
      (plainDeleteCourse repo id, some st) := by
  refine ⟨?_, ?_, ?_, ?_, ?_⟩
  · cases h : repo.create (courseFromRequest req) with
    | error e => simp [courseService.CreateCourse, plainCreateCourse, h]
    | ok course =>
      simp [courseService.CreateCourse, plainCreateCourse, h, bestEffort,
        invalidateCoursesCache_failing, hf]
  · have hg : RedisService.GetCourses st = Except.error () := getCourses_failing st hf
    cases h : repo.getAll with
    | error e => simp [courseService.GetAllCourses, plainGetAllCourses, hg, h]
    | ok courses =>
      simp [courseService.GetAllCourses, plainGetAllCourses, hg, h, bestEffort,
        setCourses_failing, hf]
  · have hg : RedisService.GetCourse st id = Except.error () := getCourse_failing st id hf
    cases h : repo.getByID id with
    | error e =>
      cases e <;> simp [courseService.GetCourseByID, plainGetCourseByID, hg, h]
    | ok course =>
      simp [courseService.GetCourseByID, plainGetCourseByID, hg, h, bestEffort,
        setCourse_failing, hf]
  · cases h : repo.getByID id with
    | error e => cases e <;> simp [courseService.UpdateCourse, plainUpdateCourse, h]
    | ok course0 =>
      simp only [courseService.UpdateCourse, plainUpdateCourse, h]
      cases h2 : repo.update
          { course0 with
            title := req.title
            description := req.description
            difficulty := req.difficulty
            imageURL := req.imageURL } with
      | error e => simp [h2]
      | ok u => simp [h2]
  · cases h : repo.getByID id with
    | error e => cases e <;> simp [courseService.DeleteCourse, plainDeleteCourse, h]
    | ok course0 =>
      simp only [courseService.DeleteCourse, plainDeleteCourse, h]
      cases h2 : repo.delete id with
      | error e => simp [h2]
      | ok u => simp [h2]

/-- C4 witness: with a concretely failing backend and the sample
repository, all five operations return the cache-free results and leave
the failing cache state unchanged. -/
theorem c4_failing_backend_falls_through_to_store_witness :
    courseService.CreateCourse sampleRepo (some failingCache) updateReq =
      (plainCreateCourse sampleRepo updateReq, some failingCache) ∧
    courseService.GetAllCourses sampleRepo (some failingCache) =
      (plainGetAllCourses sampleRepo, some failingCache) ∧
    courseService.GetCourseByID sampleRepo (some failingCache) sampleCourse.id =
      (plainGetCourseByID sampleRepo sampleCourse.id, some failingCache) ∧
    courseService.UpdateCourse sampleRepo (some failingCache) sampleCourse.id updateReq =
      (plainUpdateCourse sampleRepo sampleCourse.id updateReq, some failingCache) ∧
    courseService.DeleteCourse sampleRepo (some failingCache) sampleCourse.id =
      (plainDeleteCourse sampleRepo sampleCourse.id, some failingCache) :=
  c4_failing_backend_falls_through_to_store failingCache sampleRepo updateReq
    sampleCourse.id rfl

/-- C10: with a nil cache handle (as the router passes after a failed
startup ping, with no reconnection path anywhere), every catalog
operation returns exactly the result of the cache-free service calling
the repository directly, and no cache state ever appears. -/
theorem c10_nil_cache_equals_cache_free_service (repo : CourseRepository)
    (req : CourseRequest) (id : String) :
    courseService.CreateCourse repo none req = (plainCreateCourse repo req, none) ∧
    courseService.GetAllCourses repo none = (plainGetAllCourses repo, none) ∧
    courseService.GetCourseByID repo none id = (plainGetCourseByID repo id, none) ∧
    courseService.UpdateCourse repo none id req = (plainUpdateCourse repo id req, none) ∧
    courseService.DeleteCourse repo none id = (plainDeleteCourse repo id, none) := by
  refine ⟨?_, ?_, ?_, ?_, ?_⟩
  · cases h : repo.create (courseFromRequest req) with
    | error e => simp [courseService.CreateCourse, plainCreateCourse, h]
    | ok course => simp [courseService.CreateCourse, plainCreateCourse, h]
  · cases h : repo.getAll with
    | error e => simp [courseService.GetAllCourses, plainGetAllCourses, h]
    | ok courses => simp [courseService.GetAllCourses, plainGetAllCourses, h]
  · cases h : repo.getByID id with
    | error e =>
      cases e <;> simp [courseService.GetCourseByID, plainGetCourseByID, h]
    | ok course => simp [courseService.GetCourseByID, plainGetCourseByID, h]
  · cases h : repo.getByID id with
    | error e => cases e <;> simp [courseService.UpdateCourse, plainUpdateCourse, h]
    | ok course0 =>
      simp only [courseService.UpdateCourse, plainUpdateCourse, h]
      cases h2 : repo.update
          { course0 with
            title := req.title
            description := req.description
            difficulty := req.difficulty
            imageURL := req.imageURL } with
      | error e => simp [h2]
      | ok u => simp [h2]
  · cases h : repo.getByID id with
    | error e => cases e <;> simp [courseService.DeleteCourse, plainDeleteCourse, h]
    | ok course0 =>
      simp only [courseService.DeleteCourse, plainDeleteCourse, h]
      cases h2 : repo.delete id with
      | error e => simp [h2]
      | ok u => simp [h2]
